import Mathlib

/-!
Verification of the deferred-rendering request pipeline of
src/video/canvas.cpp (Canvas: request buffering, stable sort by layer,
filtered dispatch, clear).

C++ floats are modelled as rationals, pointers as Option, the obstack
arena is elided (payloads are stored by value inside requests, which the
design notes of the specification endorse as the equivalent shallow
form), and std::stable_sort is modelled by List.mergeSort with the
non-strict comparator; both denote the unique stable sort by layer.
-/

/-- Model of the C++ float type used by the video code. -/
abbrev Flt := Rat

/-- Two-component vector (math/vector.hpp, absent from the excerpt;
field layout as used by canvas.cpp). -/
structure Vec where
  x : Flt
  y : Flt
deriving DecidableEq, Repr

instance : Add Vec := ⟨fun a b => ⟨a.x + b.x, a.y + b.y⟩⟩

theorem Vec.add_def (a b : Vec) : a + b = ⟨a.x + b.x, a.y + b.y⟩ := rfl

/-- Size with float components (math/sizef.hpp, absent from the excerpt). -/
structure Sizef where
  width : Flt
  height : Flt
deriving DecidableEq, Repr

/-- Axis-aligned float rectangle given by two corner points
(math/rectf.hpp, absent from the excerpt; p1 is the top-left corner,
p2 the bottom-right corner). -/
structure Rectf where
  p1 : Vec
  p2 : Vec
deriving DecidableEq, Repr

def Rectf.get_left (r : Rectf) : Flt := r.p1.x

def Rectf.get_top (r : Rectf) : Flt := r.p1.y

def Rectf.get_right (r : Rectf) : Flt := r.p2.x

def Rectf.get_bottom (r : Rectf) : Flt := r.p2.y

def Rectf.get_width (r : Rectf) : Flt := r.p2.x - r.p1.x

def Rectf.get_height (r : Rectf) : Flt := r.p2.y - r.p1.y

def Rectf.get_size (r : Rectf) : Sizef := ⟨r.get_width, r.get_height⟩

/-- The Rectf(Vector, Size) constructor: a rectangle with the given
top-left position and size. -/
def Rectf.ofPosSize (pos : Vec) (size : Sizef) : Rectf :=
  ⟨pos, ⟨pos.x + size.width, pos.y + size.height⟩⟩

/-- Integer rectangle (math/rect.hpp, absent from the excerpt); the
viewport handed out by the drawing context. -/
structure Rect where
  left : Int
  top : Int
  right : Int
  bottom : Int
deriving DecidableEq, Repr

/-- The top-left corner of an integer rectangle, as a float vector. -/
def Rect.top_left (r : Rect) : Vec := ⟨(r.left : Flt), (r.top : Flt)⟩

/-- RGBA color (video/color.hpp, absent from the excerpt). -/
structure Color where
  red : Flt
  green : Flt
  blue : Flt
  alpha : Flt
deriving DecidableEq, Repr

/-- The Color(r, g, b) constructor defaults alpha to 1. -/
def Color.rgb (r g b : Flt) : Color := ⟨r, g, b, 1⟩

/-- Modelled from the spec: blend is a source/destination factor pair
(video/blend.hpp is absent from the excerpt); the factor values are
opaque to the canvas code. -/
structure Blend where
  sfactor : Nat
  dfactor : Nat
deriving DecidableEq, Repr

/-- The Blend() default constructor. -/
def Blend.default : Blend := ⟨0, 0⟩

/-- DrawingEffect is a bitmask (video/drawing_context.hpp is absent from
the excerpt; the spec describes a bitmask combined by exclusive-or). -/
abbrev DrawingEffect := Nat

/-- Modelled from the spec: the horizontal-flip bit of the effect
bitmask. -/
def HORIZONTAL_FLIP : DrawingEffect := 2

/-- Modelled from the spec: the fixed threshold layer separating world
layers from overlay/lightmap layers (video/drawing_context.hpp is
absent from the excerpt); the claims are relative to this constant, not
to its numeric value. -/
def LAYER_LIGHTMAP : Int := 450

/-- A drawable surface (video/surface.hpp, absent from the excerpt):
width, height, horizontal-flip flag and an underlying texture handle,
exactly the interface canvas.cpp consumes. -/
structure Surface where
  width : Int
  height : Int
  flipx : Bool
  texture : Nat
deriving DecidableEq, Repr

/-- SurfacePtr is a shared pointer and may be null. -/
abbrev SurfacePtr := Option Surface

/-- A font handle (video/font.hpp, absent from the excerpt); only its
identity matters to the canvas code. -/
structure Font where
  id : Nat
deriving DecidableEq, Repr

/-- FontPtr is a shared pointer and may be null. -/
abbrev FontPtr := Option Font

inductive FontAlignment where
  | ALIGN_LEFT
  | ALIGN_CENTER
  | ALIGN_RIGHT
deriving DecidableEq, Repr

inductive GradientDirection where
  | VERTICAL
  | HORIZONTAL
deriving DecidableEq, Repr

/-- The request type tag (video/drawing_request.hpp, absent from the
excerpt; the variants are exactly the cases dispatched by
Canvas::render). -/
inductive RequestType where
  | TEXTURE
  | GRADIENT
  | TEXT
  | FILLRECT
  | INVERSEELLIPSE
  | LINE
  | TRIANGLE
  | GETLIGHT
deriving DecidableEq, Repr

/-- The per-type payload variants (video/drawing_request.hpp, absent
from the excerpt; the fields are exactly the ones canvas.cpp reads and
writes, per the payload-variant list of the spec). -/
inductive DrawingRequestData where
  | texture (srcrect : Rectf) (dstrect : Rectf) (tex : Nat)
  | text (pos : Vec) (font : FontPtr) (text : String) (alignment : FontAlignment)
  | gradient (top : Color) (bottom : Color) (direction : GradientDirection) (region : Rectf)
  | fillrect (pos : Vec) (size : Vec) (color : Color) (radius : Flt)
  | inverseellipse (pos : Vec) (size : Vec) (color : Color)
  | line (pos : Vec) (dest_pos : Vec) (color : Color)
  | triangle (pos1 : Vec) (pos2 : Vec) (pos3 : Vec) (color : Color)
  | getlight (pos : Vec)
deriving DecidableEq, Repr

/-- One buffered drawing command (video/drawing_request.hpp, absent from
the excerpt): type tag, layer, per-call state, and the payload; the
payload pointer may be null, which clear checks for. -/
structure DrawingRequest where
  type : RequestType
  layer : Int
  drawing_effect : DrawingEffect
  alpha : Flt
  blend : Blend
  angle : Flt
  color : Color
  request_data : Option DrawingRequestData
deriving DecidableEq, Repr

/-- The transform state exposed by the drawing context. Modelled from
the spec: the context exposes an affine apply plus the current effect
and alpha (video/drawing_context.hpp is absent from the excerpt). -/
structure Transform where
  drawing_effect : DrawingEffect
  alpha : Flt
  apply : Vec → Vec

/-- The slice of DrawingContext state canvas.cpp queries: current
transform, clip rectangle, viewport and render-target width. -/
structure DrawingContext where
  transform : Transform
  cliprect : Rectf
  viewport : Rect
  width : Int

/-- Modelled from the spec: the render-target selector, Normal vs
Lightmap. -/
inductive DrawingTarget where
  | NORMAL
  | LIGHTMAP
deriving DecidableEq, Repr

/-- The Canvas state: target, borrowed context, and the ordered request
buffer (the obstack arena is elided; payloads live inside requests). -/
structure Canvas where
  target : DrawingTarget
  context : DrawingContext
  requests : List DrawingRequest

/-- Canvas::Filter. -/
inductive Canvas.Filter where
  | ALL_ALLOWED
  | BELOW_LIGHTMAP
  | ABOVE_LIGHTMAP
deriving DecidableEq, Repr

/-- Which painter render selects: the renderer painter or the lightmap
painter. -/
inductive PainterSel where
  | renderer
  | lightmap
deriving DecidableEq, Repr

/-- The painter chosen from the target, canvas.cpp lines 84-86. -/
def painterFor : DrawingTarget → PainterSel
  | DrawingTarget.LIGHTMAP => PainterSel.lightmap
  | DrawingTarget.NORMAL => PainterSel.renderer

/-- One backend call issued by the dispatch loop of Canvas::render: a
painter draw method, a font draw (the TEXT case), or the lightmap light
query (the GETLIGHT case). Each event records the request it came
from. -/
inductive DispatchEvent where
  | paint (dest : PainterSel) (req : DrawingRequest)
  | fontDraw (dest : PainterSel) (font : FontPtr) (text : String) (pos : Vec)
      (alignment : FontAlignment) (effect : DrawingEffect) (color : Color)
      (alpha : Flt) (req : DrawingRequest)
  | getLight (req : DrawingRequest)
  | invalidText (dest : PainterSel) (req : DrawingRequest)
deriving DecidableEq, Repr

/-- The request an event dispatches. -/
def DispatchEvent.request : DispatchEvent → DrawingRequest
  | DispatchEvent.paint _ r => r
  | DispatchEvent.fontDraw _ _ _ _ _ _ _ _ r => r
  | DispatchEvent.getLight r => r
  | DispatchEvent.invalidText _ r => r

/-- The painter an event hands the work to, if any. -/
def DispatchEvent.dest : DispatchEvent → Option PainterSel
  | DispatchEvent.paint d _ => some d
  | DispatchEvent.fontDraw d _ _ _ _ _ _ _ _ => some d
  | DispatchEvent.getLight _ => none
  | DispatchEvent.invalidText d _ => some d

/-- effect_from_surface, canvas.cpp lines 33-40. -/
def effect_from_surface (surface : Surface) : DrawingEffect :=
  if surface.flipx then HORIZONTAL_FLIP else 0

/-- Canvas::clear, canvas.cpp lines 57-69: destruct every request and
payload in place (a memory-level action with no counterpart here) and
empty the buffer. -/
def Canvas.clear (c : Canvas) : Canvas :=
  { c with requests := [] }

/-- Canvas::apply_translate, canvas.cpp lines 379-384. -/
def Canvas.apply_translate (c : Canvas) (pos : Vec) : Vec :=
  c.context.transform.apply pos +
    Vec.mk (c.context.viewport.left : Flt) (c.context.viewport.top : Flt)

/-- The comparator of the stable sort in Canvas::render, line 78:
std::stable_sort with the strict comparator (layer less-than) is the
stable sort under the non-strict relation (layer less-or-equal). -/
def layerLe (r1 r2 : DrawingRequest) : Bool := r1.layer ≤ r2.layer

/-- The skip test of the dispatch loop, canvas.cpp lines 91-94: true
when the request survives the filter. -/
def survives (filter : Canvas.Filter) (r : DrawingRequest) : Bool :=
  match filter with
  | Canvas.Filter.BELOW_LIGHTMAP => !(r.layer ≥ LAYER_LIGHTMAP)
  | Canvas.Filter.ABOVE_LIGHTMAP => !(r.layer ≤ LAYER_LIGHTMAP)
  | Canvas.Filter.ALL_ALLOWED => true

/-- The switch of the dispatch loop, canvas.cpp lines 96-133: TEXTURE,
GRADIENT, FILLRECT, INVERSEELLIPSE, LINE and TRIANGLE go to the selected
painter; TEXT resolves the text payload and calls the font draw method
with the selected painter; GETLIGHT always goes to the lightmap light
query. A TEXT request whose payload is not a text payload would be an
invalid cast in the C++ and is recorded as an invalidText event. -/
def dispatchOne (target : DrawingTarget) (r : DrawingRequest) : DispatchEvent :=
  match r.type with
  | RequestType.TEXT =>
    match r.request_data with
    | some (DrawingRequestData.text pos font text alignment) =>
      DispatchEvent.fontDraw (painterFor target) font text pos alignment
        r.drawing_effect r.color r.alpha r
    | _ => DispatchEvent.invalidText (painterFor target) r
  | RequestType.GETLIGHT => DispatchEvent.getLight r
  | _ => DispatchEvent.paint (painterFor target) r

/-- Canvas::render, canvas.cpp lines 71-135: stable-sort the buffer in
place by ascending layer, then walk the sorted buffer, skip requests
failing the filter, and dispatch each survivor. Returns the issued
backend calls in order together with the canvas after the in-place
sort. -/
def Canvas.render (c : Canvas) (filter : Canvas.Filter) :
    List DispatchEvent × Canvas :=
  let sorted := c.requests.mergeSort layerLe
  ((sorted.filter (survives filter)).map (dispatchOne c.target),
   { c with requests := sorted })

/-- The requests Canvas::render hands to the backend, in dispatch
order. -/
def Canvas.dispatched (c : Canvas) (filter : Canvas.Filter) : List DrawingRequest :=
  ((c.render filter).1).map DispatchEvent.request

/-- Canvas::draw_surface (full overload), canvas.cpp lines 137-172.
The null-surface assert is modelled by returning none; a culled call
returns the canvas unchanged (the C++ leaks the freshly allocated
request into the arena but enqueues nothing). -/
def Canvas.draw_surface (c : Canvas) (surface : SurfacePtr) (position : Vec)
    (angle : Flt) (color : Color) (blend : Blend) (layer : Int) : Option Canvas :=
  match surface with
  | none => none
  | some s =>
    let cliprect := c.context.cliprect
    if position.x > cliprect.get_right ∨
       position.y > cliprect.get_bottom ∨
       position.x + (s.width : Flt) < cliprect.get_left ∨
       position.y + (s.height : Flt) < cliprect.get_top then
      some c
    else
      some { c with requests := c.requests ++
        [{ type := RequestType.TEXTURE
           layer := layer
           drawing_effect := Nat.xor c.context.transform.drawing_effect (effect_from_surface s)
           alpha := c.context.transform.alpha
           blend := blend
           angle := angle
           color := color
           request_data := some (DrawingRequestData.texture
             (Rectf.mk ⟨0, 0⟩ ⟨(s.width : Flt), (s.height : Flt)⟩)
             (Rectf.ofPosSize (c.apply_translate position) ⟨(s.width : Flt), (s.height : Flt)⟩)
             s.texture) }] }

/-- Canvas::draw_surface (short overload), canvas.cpp lines 174-178. -/
def Canvas.draw_surface_simple (c : Canvas) (surface : SurfacePtr) (position : Vec)
    (layer : Int) : Option Canvas :=
  c.draw_surface surface position 0 (Color.rgb 1 1 1) Blend.default layer

/-- Canvas::draw_surface_part, canvas.cpp lines 180-203, translated
verbatim: the payload srcrect is built from the translated dstrect
corner and the srcrect size, and the payload dstrect is the dstrect
argument unchanged; color, blend and angle keep the defaults of the
DrawingRequest constructor. -/
def Canvas.draw_surface_part (c : Canvas) (surface : SurfacePtr)
    (srcrect dstrect : Rectf) (layer : Int) : Option Canvas :=
  match surface with
  | none => none
  | some s =>
    some { c with requests := c.requests ++
      [{ type := RequestType.TEXTURE
         layer := layer
         drawing_effect := Nat.xor c.context.transform.drawing_effect (effect_from_surface s)
         alpha := c.context.transform.alpha
         blend := Blend.default
         angle := 0
         color := Color.rgb 1 1 1
         request_data := some (DrawingRequestData.texture
           (Rectf.ofPosSize (c.apply_translate dstrect.p1) srcrect.get_size)
           dstrect
           s.texture) }] }

/-- Canvas::draw_text, canvas.cpp lines 205-225: no precondition, no
assert; the font pointer is stored in the payload untouched. -/
def Canvas.draw_text (c : Canvas) (font : FontPtr) (text : String)
    (position : Vec) (alignment : FontAlignment) (layer : Int) (color : Color) : Canvas :=
  { c with requests := c.requests ++
    [{ type := RequestType.TEXT
       layer := layer
       drawing_effect := c.context.transform.drawing_effect
       alpha := c.context.transform.alpha
       blend := Blend.default
       angle := 0
       color := color
       request_data := some (DrawingRequestData.text
         (c.apply_translate position) font text alignment) }] }

/-- Canvas::draw_center_text, canvas.cpp lines 227-233. -/
def Canvas.draw_center_text (c : Canvas) (font : FontPtr) (text : String)
    (position : Vec) (layer : Int) (color : Color) : Canvas :=
  c.draw_text font text
    (Vec.mk (position.x + (c.context.width : Flt) / 2) position.y)
    FontAlignment.ALIGN_CENTER layer color

/-- Canvas::draw_gradient, canvas.cpp lines 235-255. -/
def Canvas.draw_gradient (c : Canvas) (top bottom : Color) (layer : Int)
    (direction : GradientDirection) (region : Rectf) : Canvas :=
  { c with requests := c.requests ++
    [{ type := RequestType.GRADIENT
       layer := layer
       drawing_effect := c.context.transform.drawing_effect
       alpha := c.context.transform.alpha
       blend := Blend.default
       angle := 0
       color := Color.rgb 1 1 1
       request_data := some (DrawingRequestData.gradient top bottom direction region) }] }

/-- Canvas::draw_filled_rect (topleft/size overload), canvas.cpp lines
257-280: the payload color alpha is the product of the color argument
alpha and the context alpha. -/
def Canvas.draw_filled_rect (c : Canvas) (topleft size : Vec) (color : Color)
    (layer : Int) : Canvas :=
  { c with requests := c.requests ++
    [{ type := RequestType.FILLRECT
       layer := layer
       drawing_effect := c.context.transform.drawing_effect
       alpha := c.context.transform.alpha
       blend := Blend.default
       angle := 0
       color := Color.rgb 1 1 1
       request_data := some (DrawingRequestData.fillrect
         (c.apply_translate topleft) size
         { color with alpha := color.alpha * c.context.transform.alpha } 0) }] }

/-- Canvas::draw_filled_rect (rect/radius overload), canvas.cpp lines
289-310. -/
def Canvas.draw_filled_rect_radius (c : Canvas) (rect : Rectf) (color : Color)
    (radius : Flt) (layer : Int) : Canvas :=
  { c with requests := c.requests ++
    [{ type := RequestType.FILLRECT
       layer := layer
       drawing_effect := c.context.transform.drawing_effect
       alpha := c.context.transform.alpha
       blend := Blend.default
       angle := 0
       color := Color.rgb 1 1 1
       request_data := some (DrawingRequestData.fillrect
         (c.apply_translate rect.p1)
         (Vec.mk rect.get_width rect.get_height)
         { color with alpha := color.alpha * c.context.transform.alpha } radius) }] }

/-- Canvas::draw_filled_rect (rect overload), canvas.cpp lines 282-287. -/
def Canvas.draw_filled_rect_r (c : Canvas) (rect : Rectf) (color : Color)
    (layer : Int) : Canvas :=
  c.draw_filled_rect_radius rect color 0 layer

/-- Canvas::draw_inverse_ellipse, canvas.cpp lines 312-332. -/
def Canvas.draw_inverse_ellipse (c : Canvas) (pos size : Vec) (color : Color)
    (layer : Int) : Canvas :=
  { c with requests := c.requests ++
    [{ type := RequestType.INVERSEELLIPSE
       layer := layer
       drawing_effect := c.context.transform.drawing_effect
       alpha := c.context.transform.alpha
       blend := Blend.default
       angle := 0
       color := Color.rgb 1 1 1
       request_data := some (DrawingRequestData.inverseellipse
         (c.apply_translate pos) size
         { color with alpha := color.alpha * c.context.transform.alpha }) }] }

/-- Canvas::draw_line, canvas.cpp lines 334-354. -/
def Canvas.draw_line (c : Canvas) (pos1 pos2 : Vec) (color : Color)
    (layer : Int) : Canvas :=
  { c with requests := c.requests ++
    [{ type := RequestType.LINE
       layer := layer
       drawing_effect := c.context.transform.drawing_effect
       alpha := c.context.transform.alpha
       blend := Blend.default
       angle := 0
       color := Color.rgb 1 1 1
       request_data := some (DrawingRequestData.line
         (c.apply_translate pos1) (c.apply_translate pos2)
         { color with alpha := color.alpha * c.context.transform.alpha }) }] }

/-- Canvas::draw_triangle, canvas.cpp lines 356-377. -/
def Canvas.draw_triangle (c : Canvas) (pos1 pos2 pos3 : Vec) (color : Color)
    (layer : Int) : Canvas :=
  { c with requests := c.requests ++
    [{ type := RequestType.TRIANGLE
       layer := layer
       drawing_effect := c.context.transform.drawing_effect
       alpha := c.context.transform.alpha
       blend := Blend.default
       angle := 0
       color := Color.rgb 1 1 1
       request_data := some (DrawingRequestData.triangle
         (c.apply_translate pos1) (c.apply_translate pos2) (c.apply_translate pos3)
         { color with alpha := color.alpha * c.context.transform.alpha }) }] }

/-- Strict disjointness of two float rectangles: the first lies strictly
outside the second (sharing an edge already counts as overlap). For a
destination rectangle and the clip rectangle this is exactly the discard
test of Canvas::draw_surface, canvas.cpp lines 149-153. -/
def Rectf.strictly_outside (a b : Rectf) : Prop :=
  a.get_left > b.get_right ∨ a.get_top > b.get_bottom ∨
  a.get_right < b.get_left ∨ a.get_bottom < b.get_top

instance (a b : Rectf) : Decidable (a.strictly_outside b) := by
  unfold Rectf.strictly_outside
  infer_instance

/-- The color stored in a filled-shape payload, when the payload is one
of the filled-shape variants. -/
def DrawingRequestData.shape_color : DrawingRequestData → Option Color
  | DrawingRequestData.fillrect _ _ color _ => some color
  | DrawingRequestData.inverseellipse _ _ color => some color
  | DrawingRequestData.line _ _ color => some color
  | DrawingRequestData.triangle _ _ _ color => some color
  | _ => none

/-- The alpha of the color stored in the payload of the most recently
enqueued request, when that payload is a filled-shape variant. -/
def Canvas.last_shape_alpha (c : Canvas) : Option Flt :=
  ((c.requests.getLast?.bind DrawingRequest.request_data).bind
    DrawingRequestData.shape_color).map Color.alpha

/-- The font stored in a text payload. -/
def DrawingRequestData.text_font : DrawingRequestData → Option FontPtr
  | DrawingRequestData.text _ font _ _ => some font
  | _ => none

/-! Helper lemmas about the sort comparator and the dispatch loop. -/

theorem layerLe_trans : ∀ a b c : DrawingRequest,
    layerLe a b = true → layerLe b c = true → layerLe a c = true := by
  intro a b c hab hbc
  simp only [layerLe, decide_eq_true_eq] at *
  exact le_trans hab hbc

theorem layerLe_total : ∀ a b : DrawingRequest, (layerLe a b || layerLe b a) = true := by
  intro a b
  simp only [layerLe, Bool.or_eq_true, decide_eq_true_eq]
  exact le_total a.layer b.layer

/-- Stability of the sort: a filter whose members all share a layer (or,
more generally, are mutually ordered) passes through the stable sort
unchanged. -/
theorem mergeSort_layerLe_filter_stable (l : List DrawingRequest)
    (p : DrawingRequest → Bool)
    (hp : ∀ a b : DrawingRequest, p a = true → p b = true → layerLe a b = true) :
    (l.mergeSort layerLe).filter p = l.filter p := by
  have hpair : (l.filter p).Pairwise (fun a b => layerLe a b = true) :=
    List.pairwise_of_forall_mem_list (fun a ha b hb =>
      hp a b (List.mem_filter.mp ha).2 (List.mem_filter.mp hb).2)
  have hsub : (l.filter p).Sublist (l.mergeSort layerLe) :=
    List.sublist_mergeSort layerLe_trans layerLe_total hpair (List.filter_sublist l)
  have hself : (l.filter p).filter p = l.filter p :=
    List.filter_eq_self.mpr (fun a ha => (List.mem_filter.mp ha).2)
  have hsub2 : (l.filter p).Sublist ((l.mergeSort layerLe).filter p) := by
    have h2 := hsub.filter p
    rwa [hself] at h2
  have hlen : ((l.mergeSort layerLe).filter p).length = (l.filter p).length :=
    ((List.mergeSort_perm l layerLe).filter p).length_eq
  exact (hsub2.eq_of_length hlen.symm).symm

/-- Every dispatch event carries the request it was built from. -/
theorem dispatchOne_request (t : DrawingTarget) (r : DrawingRequest) :
    (dispatchOne t r).request = r := by
  obtain ⟨ty, layer, de, al, bl, an, co, rd⟩ := r
  cases ty <;> try rfl
  cases rd with
  | none => rfl
  | some d => cases d <;> rfl

/-- The dispatched requests are the post-filter slice of the sorted
buffer. -/
theorem Canvas.dispatched_eq (c : Canvas) (f : Canvas.Filter) :
    c.dispatched f = (c.requests.mergeSort layerLe).filter (survives f) := by
  simp only [Canvas.dispatched, Canvas.render, List.map_map]
  rw [show DispatchEvent.request ∘ dispatchOne c.target = id from
    funext (dispatchOne_request c.target), List.map_id]

/-! Concrete fixtures used by counterexamples and witnesses. The test
transform is the identity, so the translation contributed by
apply_translate is exactly the viewport corner (5, 7). -/

def testTransform : Transform := ⟨0, 1, fun p => p⟩

def testContext : DrawingContext :=
  ⟨testTransform, ⟨⟨0, 0⟩, ⟨100, 100⟩⟩, ⟨5, 7, 325, 247⟩, 320⟩

def testCanvas : Canvas := ⟨DrawingTarget.NORMAL, testContext, []⟩

def testSurface : Surface := ⟨32, 32, false, 1⟩

def testSrcrect : Rectf := ⟨⟨0, 0⟩, ⟨16, 16⟩⟩

def testDstrect : Rectf := ⟨⟨10, 20⟩, ⟨42, 52⟩⟩

def outDst : Rectf := ⟨⟨200, 200⟩, ⟨216, 216⟩⟩

def testGetLightReq : DrawingRequest :=
  { type := RequestType.GETLIGHT
    layer := LAYER_LIGHTMAP
    drawing_effect := 0
    alpha := 1
    blend := Blend.default
    angle := 0
    color := Color.rgb 1 1 1
    request_data := some (DrawingRequestData.getlight ⟨1, 2⟩) }

def testTexReq : DrawingRequest :=
  { type := RequestType.TEXTURE
    layer := 10
    drawing_effect := 0
    alpha := 1
    blend := Blend.default
    angle := 0
    color := Color.rgb 1 1 1
    request_data := some (DrawingRequestData.texture testSrcrect testDstrect 1) }

def testCanvasGL : Canvas :=
  ⟨DrawingTarget.NORMAL, testContext, [testTexReq, testGetLightReq]⟩

/-- The test buffer is already sorted by layer, so the in-place stable
sort leaves it unchanged; this lets the witnesses evaluate render on
concrete input. -/
theorem testCanvasGL_sorted :
    testCanvasGL.requests.mergeSort layerLe = testCanvasGL.requests :=
  List.mergeSort_of_sorted (by
    simp [testCanvasGL, layerLe, testTexReq, testGetLightReq, LAYER_LIGHTMAP])

/-! The claim theorems. -/

/-- Claim C6: for every position p, apply_translate p equals the context
transform applied to p plus the top-left corner of the viewport, for
whatever transform and viewport the context currently holds. -/
theorem apply_translate_spec (c : Canvas) (p : Vec) :
    c.apply_translate p = c.context.transform.apply p + c.context.viewport.top_left :=
  rfl

/-- Claim C8: clear is idempotent — clearing twice equals clearing once,
clear leaves the buffer empty, and clearing an already-empty canvas is a
no-op. (Destruction of requests and payloads is a memory-level action
with no shallow counterpart; the buffer-state part is what is stated.) -/
theorem clear_idempotent (c : Canvas) :
    c.clear.clear = c.clear ∧ c.clear.requests = [] ∧
      (c.requests = [] → c.clear = c) := by
  refine ⟨rfl, rfl, fun h => ?_⟩
  cases c
  simp only [Canvas.clear] at *
  rw [← h]

/-- Witness for C8 at a concrete canvas with an empty buffer. -/
theorem clear_idempotent_witness : testCanvas.clear = testCanvas :=
  (clear_idempotent testCanvas).2.2 rfl

/-- Claim C5: every filled-shape draw call passing an explicit color
(filled rect in both payload-building overloads, inverse ellipse, line,
triangle) stores in its payload a color whose alpha is the context alpha
times the alpha of the color argument. -/
theorem shape_alpha_composition (c : Canvas) (p q r1 r2 r3 : Vec) (rect : Rectf)
    (color : Color) (radius : Flt) (layer : Int) :
    (c.draw_filled_rect p q color layer).last_shape_alpha =
        some (c.context.transform.alpha * color.alpha) ∧
    (c.draw_filled_rect_radius rect color radius layer).last_shape_alpha =
        some (c.context.transform.alpha * color.alpha) ∧
    (c.draw_inverse_ellipse p q color layer).last_shape_alpha =
        some (c.context.transform.alpha * color.alpha) ∧
    (c.draw_line p q color layer).last_shape_alpha =
        some (c.context.transform.alpha * color.alpha) ∧
    (c.draw_triangle r1 r2 r3 color layer).last_shape_alpha =
        some (c.context.transform.alpha * color.alpha) := by
  refine ⟨?_, ?_, ?_, ?_, ?_⟩ <;>
    simp [Canvas.last_shape_alpha, Canvas.draw_filled_rect,
      Canvas.draw_filled_rect_radius, Canvas.draw_inverse_ellipse,
      Canvas.draw_line, Canvas.draw_triangle, DrawingRequestData.shape_color,
      mul_comm]

/-- The request Canvas::draw_text enqueues, spelled out. -/
def textRequestOf (c : Canvas) (font : FontPtr) (text : String)
    (position : Vec) (alignment : FontAlignment) (layer : Int) (color : Color) :
    DrawingRequest :=
  { type := RequestType.TEXT
    layer := layer
    drawing_effect := c.context.transform.drawing_effect
    alpha := c.context.transform.alpha
    blend := Blend.default
    angle := 0
    color := color
    request_data := some (DrawingRequestData.text
      (c.apply_translate position) font text alignment) }

/-- Claim C10: draw_text has no precondition on its font argument — for
every font value, including the null pointer none, it totally succeeds
and appends exactly one TEXT request whose payload stores the font
untouched; the font is only consumed later, when the dispatch loop of
render resolves the payload and issues the font draw call. -/
theorem draw_text_total (c : Canvas) (font : FontPtr) (text : String)
    (position : Vec) (alignment : FontAlignment) (layer : Int) (color : Color) :
    (c.draw_text font text position alignment layer color).requests =
        c.requests ++ [textRequestOf c font text position alignment layer color] ∧
    (textRequestOf c font text position alignment layer color).type =
        RequestType.TEXT ∧
    ((textRequestOf c font text position alignment layer color).request_data.bind
        DrawingRequestData.text_font) = some font ∧
    (∀ t : DrawingTarget,
      dispatchOne t (textRequestOf c font text position alignment layer color) =
        DispatchEvent.fontDraw (painterFor t) font text (c.apply_translate position)
          alignment c.context.transform.drawing_effect color
          c.context.transform.alpha
          (textRequestOf c font text position alignment layer color)) :=
  ⟨rfl, rfl, rfl, fun _ => rfl⟩

/-- Claim C2: the code evaluated at a concrete draw_surface_part call
with a nonzero translation (identity transform, viewport corner (5, 7),
destination corner (10, 20), source rectangle from (0, 0) to (16, 16)):
the enqueued payload stores the translated destination corner (15, 27)
inside the SOURCE rectangle, and stores the destination rectangle
untransformed, contrary to the claim. -/
theorem draw_surface_part_translates_srcrect :
    ((testCanvas.draw_surface_part (some testSurface) testSrcrect testDstrect 50).map
        (fun c => c.requests.map DrawingRequest.request_data)) =
      some [some (DrawingRequestData.texture
        (Rectf.mk ⟨15, 27⟩ ⟨31, 43⟩) testDstrect 1)] ∧
    testCanvas.apply_translate testDstrect.p1 = ⟨15, 27⟩ ∧
    testDstrect.p1 = ⟨10, 20⟩ := by
  refine ⟨?_, ?_, rfl⟩ <;>
    norm_num [testCanvas, testContext, testTransform, testSurface, testSrcrect,
      testDstrect, Canvas.draw_surface_part, Canvas.apply_translate,
      Rectf.ofPosSize, Rectf.get_size, Rectf.get_width, Rectf.get_height,
      Vec.add_def]

/-- Claim C4, counterexample: a draw_surface_part call is a texture draw
with a non-null surface whose destination rectangle lies strictly
outside the clip rectangle, yet it enqueues one request, not zero. -/
theorem draw_surface_part_ignores_clip :
    outDst.strictly_outside testCanvas.context.cliprect ∧
    ((testCanvas.draw_surface_part (some testSurface) testSrcrect outDst 10).map
        (fun c => c.requests.length)) = some 1 := by
  constructor
  · left
    norm_num [outDst, testCanvas, testContext, Rectf.get_left, Rectf.get_right]
  · simp [Canvas.draw_surface_part, testCanvas]

/-- Claim C4 (amended): only draw_surface culls — with a non-null
surface, a draw_surface call whose destination rectangle (position plus
surface size) lies strictly outside the clip rectangle enqueues nothing,
and one overlapping the clip rectangle at all enqueues exactly one
request; draw_surface_part always enqueues exactly one request
regardless of the clip rectangle. -/
theorem draw_surface_culling (c : Canvas) (s : Surface) (position : Vec)
    (angle : Flt) (color : Color) (blend : Blend) (layer : Int)
    (srcrect dstrect : Rectf) :
    ((Rectf.ofPosSize position ⟨(s.width : Flt), (s.height : Flt)⟩).strictly_outside
        c.context.cliprect →
      (c.draw_surface (some s) position angle color blend layer).map Canvas.requests =
        some c.requests) ∧
    (¬ (Rectf.ofPosSize position ⟨(s.width : Flt), (s.height : Flt)⟩).strictly_outside
        c.context.cliprect →
      (c.draw_surface (some s) position angle color blend layer).map
          (fun c2 => c2.requests.length) = some (c.requests.length + 1)) ∧
    (c.draw_surface_part (some s) srcrect dstrect layer).map
        (fun c2 => c2.requests.length) = some (c.requests.length + 1) := by
  have hcond : (Rectf.ofPosSize position
      ⟨(s.width : Flt), (s.height : Flt)⟩).strictly_outside c.context.cliprect ↔
      (position.x > c.context.cliprect.get_right ∨
       position.y > c.context.cliprect.get_bottom ∨
       position.x + (s.width : Flt) < c.context.cliprect.get_left ∨
       position.y + (s.height : Flt) < c.context.cliprect.get_top) := Iff.rfl
  refine ⟨fun h => ?_, fun h => ?_, ?_⟩
  · simp only [Canvas.draw_surface]
    rw [if_pos (hcond.mp h)]
    rfl
  · simp only [Canvas.draw_surface]
    rw [if_neg (fun hc => h (hcond.mpr hc))]
    simp
  · simp [Canvas.draw_surface_part]

/-- Witness for C4 at concrete inputs: a position strictly outside the
test clip rectangle enqueues nothing, a position inside it enqueues one
request. -/
theorem draw_surface_culling_witness :
    (testCanvas.draw_surface (some testSurface) ⟨200, 200⟩ 0 (Color.rgb 1 1 1)
        Blend.default 10).map Canvas.requests = some testCanvas.requests ∧
    (testCanvas.draw_surface (some testSurface) ⟨1, 1⟩ 0 (Color.rgb 1 1 1)
        Blend.default 10).map (fun c2 => c2.requests.length) =
      some (testCanvas.requests.length + 1) :=
  ⟨(draw_surface_culling testCanvas testSurface ⟨200, 200⟩ 0 (Color.rgb 1 1 1)
      Blend.default 10 testSrcrect testDstrect).1
      (Or.inl (by norm_num [testCanvas, testContext, Rectf.ofPosSize,
        Rectf.get_left, Rectf.get_right])),
   (draw_surface_culling testCanvas testSurface ⟨1, 1⟩ 0 (Color.rgb 1 1 1)
      Blend.default 10 testSrcrect testDstrect).2.1
      (by norm_num [Rectf.strictly_outside, Rectf.ofPosSize, testSurface,
        testCanvas, testContext, Rectf.get_left, Rectf.get_right,
        Rectf.get_top, Rectf.get_bottom])⟩

/-- Claim C1: for every sequence of draw calls, render dispatches the
surviving (post-filter) requests in non-decreasing layer order, their
multiset is exactly the surviving slice of the insertion-order buffer,
and within each layer the dispatch order is the insertion order: the
dispatch order is the stable sort of the insertion order by ascending
layer. -/
theorem render_dispatch_stable_sorted (c : Canvas) (f : Canvas.Filter) :
    List.Pairwise (fun a b : DrawingRequest => a.layer ≤ b.layer) (c.dispatched f) ∧
    (c.dispatched f).Perm (c.requests.filter (survives f)) ∧
    ∀ L : Int, (c.dispatched f).filter (fun r => r.layer == L) =
      (c.requests.filter (survives f)).filter (fun r => r.layer == L) := by
  refine ⟨?_, ?_, ?_⟩
  · rw [Canvas.dispatched_eq]
    exact ((List.sorted_mergeSort layerLe_trans layerLe_total c.requests).filter
      (survives f)).imp (fun h => of_decide_eq_true h)
  · rw [Canvas.dispatched_eq]
    exact (List.mergeSort_perm c.requests layerLe).filter (survives f)
  · intro L
    rw [Canvas.dispatched_eq, List.filter_filter, List.filter_filter]
    apply mergeSort_layerLe_filter_stable
    intro a b ha hb
    simp only [Bool.and_eq_true] at ha hb
    have ha1 : a.layer = L := eq_of_beq ha.1
    have hb1 : b.layer = L := eq_of_beq hb.1
    simp [layerLe, ha1, hb1]

/-- Claim C3: with threshold LAYER_LIGHTMAP, render with the
below-threshold filter dispatches exactly the buffered requests with
layer strictly below the threshold, the above-threshold filter exactly
those strictly above, and the unfiltered mode all of them; a request
whose layer equals the threshold is dispatched only in the unfiltered
mode. -/
theorem render_filter_partitioning (c : Canvas) :
    (c.dispatched Canvas.Filter.BELOW_LIGHTMAP).Perm
        (c.requests.filter (fun r => decide (r.layer < LAYER_LIGHTMAP))) ∧
    (c.dispatched Canvas.Filter.ABOVE_LIGHTMAP).Perm
        (c.requests.filter (fun r => decide (LAYER_LIGHTMAP < r.layer))) ∧
    (c.dispatched Canvas.Filter.ALL_ALLOWED).Perm c.requests ∧
    ∀ r ∈ c.requests, r.layer = LAYER_LIGHTMAP →
      ∀ f : Canvas.Filter, (r ∈ c.dispatched f ↔ f = Canvas.Filter.ALL_ALLOWED) := by
  have base : ∀ f : Canvas.Filter,
      (c.dispatched f).Perm (c.requests.filter (survives f)) := fun f => by
    rw [Canvas.dispatched_eq]
    exact (List.mergeSort_perm c.requests layerLe).filter (survives f)
  have hB : ∀ r : DrawingRequest,
      survives Canvas.Filter.BELOW_LIGHTMAP r = decide (r.layer < LAYER_LIGHTMAP) := by
    intro r
    simp only [survives, ge_iff_le, ← decide_not, decide_eq_decide]
    omega
  have hA : ∀ r : DrawingRequest,
      survives Canvas.Filter.ABOVE_LIGHTMAP r = decide (LAYER_LIGHTMAP < r.layer) := by
    intro r
    simp only [survives, ← decide_not, decide_eq_decide]
    omega
  refine ⟨?_, ?_, ?_, ?_⟩
  · have h := base Canvas.Filter.BELOW_LIGHTMAP
    rwa [List.filter_congr (fun r _ => hB r)] at h
  · have h := base Canvas.Filter.ABOVE_LIGHTMAP
    rwa [List.filter_congr (fun r _ => hA r)] at h
  · have h := base Canvas.Filter.ALL_ALLOWED
    rwa [show c.requests.filter (survives Canvas.Filter.ALL_ALLOWED) = c.requests from
      List.filter_eq_self.mpr (fun a _ => rfl)] at h
  · intro r hr hlayer f
    constructor
    · intro hd
      rw [Canvas.dispatched_eq] at hd
      have hs := (List.mem_filter.mp hd).2
      cases f with
      | ALL_ALLOWED => rfl
      | BELOW_LIGHTMAP =>
        rw [hB r] at hs
        have h2 := of_decide_eq_true hs
        omega
      | ABOVE_LIGHTMAP =>
        rw [hA r] at hs
        have h2 := of_decide_eq_true hs
        omega
    · intro hf
      subst hf
      rw [Canvas.dispatched_eq]
      exact List.mem_filter.mpr
        ⟨(List.mergeSort_perm c.requests layerLe).mem_iff.mpr hr, rfl⟩

/-- Claim C7: after render, the buffer holds exactly the same requests
as before (the in-place stable sort permutes them, the dispatch pass
itself is read-only and skipped requests stay in the buffer), so a
second render with any other filter issues exactly the calls it would
have issued from the original accumulated buffer. -/
theorem render_preserves_buffer (c : Canvas) (f f2 : Canvas.Filter) :
    ((c.render f).2).requests.Perm c.requests ∧
    (∀ r ∈ c.requests, r ∈ ((c.render f).2).requests) ∧
    ((c.render f).2).render f2 = c.render f2 := by
  have hperm : (c.requests.mergeSort layerLe).Perm c.requests :=
    List.mergeSort_perm c.requests layerLe
  refine ⟨hperm, fun r hr => hperm.mem_iff.mpr hr, ?_⟩
  have hid : (c.requests.mergeSort layerLe).mergeSort layerLe =
      c.requests.mergeSort layerLe :=
    List.mergeSort_of_sorted (List.sorted_mergeSort layerLe_trans layerLe_total c.requests)
  simp only [Canvas.render]
  rw [hid]

/-- Claim C9: every dispatch event of render whose request is of type
GETLIGHT is the lightmap light query, regardless of the canvas target;
every event of any other type goes to the painter selected by the
target. -/
theorem getlight_dispatch (c : Canvas) (f : Canvas.Filter) (e : DispatchEvent)
    (he : e ∈ (c.render f).1) :
    (e.request.type = RequestType.GETLIGHT → e = DispatchEvent.getLight e.request) ∧
    (e.request.type ≠ RequestType.GETLIGHT → e.dest = some (painterFor c.target)) := by
  have he2 : e ∈ ((c.requests.mergeSort layerLe).filter (survives f)).map
      (dispatchOne c.target) := he
  obtain ⟨r, _, rfl⟩ := List.mem_map.mp he2
  rw [dispatchOne_request]
  obtain ⟨ty, layer, de, al, bl, an, co, rd⟩ := r
  constructor
  · intro ht
    cases ty <;> first
      | rfl
      | exact RequestType.noConfusion ht
  · intro hne
    cases ty <;> first
      | exact absurd rfl hne
      | rfl
      | (cases rd with
         | none => rfl
         | some d => cases d <;> rfl)

/-- Witness for C3 at the concrete test canvas: its threshold-layer
request is dispatched in the unfiltered mode. -/
theorem render_filter_partitioning_witness :
    testGetLightReq ∈ testCanvasGL.dispatched Canvas.Filter.ALL_ALLOWED :=
  ((render_filter_partitioning testCanvasGL).2.2.2 testGetLightReq
    (List.Mem.tail _ (List.Mem.head _)) rfl Canvas.Filter.ALL_ALLOWED).mpr rfl

/-- Witness for C7 at the concrete test canvas: a request skipped by the
below-threshold filter is still in the buffer after render. -/
theorem render_preserves_buffer_witness :
    testGetLightReq ∈ ((testCanvasGL.render Canvas.Filter.BELOW_LIGHTMAP).2).requests :=
  (render_preserves_buffer testCanvasGL Canvas.Filter.BELOW_LIGHTMAP
    Canvas.Filter.ALL_ALLOWED).2.1 testGetLightReq
    (List.Mem.tail _ (List.Mem.head _))

/-- Witness for C9 at the concrete test canvas: its GETLIGHT request is
dispatched as the light query, and its TEXTURE request goes to the
painter selected by the target. -/
theorem getlight_dispatch_witness :
    (DispatchEvent.getLight testGetLightReq =
      DispatchEvent.getLight ((DispatchEvent.getLight testGetLightReq).request)) ∧
    (DispatchEvent.paint PainterSel.renderer testTexReq).dest =
      some (painterFor testCanvasGL.target) :=
  ⟨(getlight_dispatch testCanvasGL Canvas.Filter.ALL_ALLOWED
      (DispatchEvent.getLight testGetLightReq)
      (by
        show DispatchEvent.getLight testGetLightReq ∈
          ((testCanvasGL.requests.mergeSort layerLe).filter
            (survives Canvas.Filter.ALL_ALLOWED)).map (dispatchOne testCanvasGL.target)
        rw [testCanvasGL_sorted]
        exact List.Mem.tail _ (List.Mem.head _))).1 rfl,
   (getlight_dispatch testCanvasGL Canvas.Filter.ALL_ALLOWED
      (DispatchEvent.paint PainterSel.renderer testTexReq)
      (by
        show DispatchEvent.paint PainterSel.renderer testTexReq ∈
          ((testCanvasGL.requests.mergeSort layerLe).filter
            (survives Canvas.Filter.ALL_ALLOWED)).map (dispatchOne testCanvasGL.target)
        rw [testCanvasGL_sorted]
        exact List.Mem.head _)).2 (fun h => RequestType.noConfusion h)⟩
